import Mathlib

/-
Verification of the process-supervision core of the CodeVox repository.

The authoritative source is src/src/process.py (module-level functions
stream_process_output, start_process, stop_process, list_all_processes,
get_process_logs_data, get_process_object, cleanup_process_object), plus
restart_cmd and the status rendering of list_processes in src/src/main.py.

The embedding below is a shallow translation of that Python code:
  - the Redis hashes process:<pid>:info become an association list of
    InfoRecord (fields absent until written are Option-valued),
  - the Redis lists process:<pid>:logs become association lists of
    LogEntry sequences,
  - the module-level dict _process_objects becomes the list procObjects,
  - the durable log file becomes an association list path -> written chunks,
  - awaiting proc.wait() is recorded in the waited list,
  - delivered signals (proc.kill()/proc.terminate()) are recorded in sigLog,
  - the output-pump coroutine stream_process_output is modelled both as the
    list of registry states observable at each await point (its trace) and
    as the final state, parameterised by the child's behaviour (stdout
    lines, exit code, stderr data) and by an optional injected I/O failure
    (failAt, the number of stdout lines processed before the exception).
-/

set_option maxHeartbeats 1000000

namespace CodeVox

/-- Which stream a captured line came from; mirrors the 'type' field
('stdout' / 'stderr') of the JSON entries pushed by stream_process_output. -/
inductive StreamKind where
  | stdout
  | stderr
deriving Repr, DecidableEq

/-- One entry of the Redis list process:<pid>:logs, as built in
stream_process_output (json.dumps of type / line / timestamp). -/
structure LogEntry where
  kind : StreamKind
  line : String
  timestamp : Nat
deriving Repr, DecidableEq

/-- The Redis hash process:<pid>:info. The fields cmd, cwd, started_at, pid,
log_file and env are written by start_process; exit_code and ended_at are
written by stream_process_output on normal completion; error is written by
its exception handler. Option-valued fields are none while the hash field
is absent (hget returns None). -/
structure InfoRecord where
  cmd : String := ""
  cwd : String := ""
  started_at : Nat := 0
  pid : Nat := 0
  log_file : String := ""
  env : String := ""
  exit_code : Option Int := none
  ended_at : Option Nat := none
  error : Option String := none
deriving Repr, DecidableEq

/-- Association-list lookup (first binding wins), the model of dict / Redis
hash-key access. -/
def alookup {κ α : Type} [DecidableEq κ] : List (κ × α) → κ → Option α
  | [], _ => none
  | (k, v) :: t, key => if k = key then some v else alookup t key

/-- Association-list update or insert, the model of dict assignment and of
Redis hset on a whole key. -/
def aset {κ α : Type} [DecidableEq κ] : List (κ × α) → κ → α → List (κ × α)
  | [], key, v => [(key, v)]
  | (k, w) :: t, key, v =>
    if k = key then (key, v) :: t else (k, w) :: aset t key v

/-- Association-list deletion, the model of dict del and Redis delete. -/
def adel {κ α : Type} [DecidableEq κ] : List (κ × α) → κ → List (κ × α)
  | [], _ => []
  | (k, v) :: t, key =>
    if k = key then adel t key else (k, v) :: adel t key

structure RegistryState where
  procObjects : List Nat
  info : List (Nat × InfoRecord)
  logs : List (Nat × List LogEntry)
  files : List (String × List String)
  waited : List Nat
  sigLog : List (Nat × Bool)
deriving Repr, DecidableEq

/-- Redis hgetall process:<pid>:info (empty hash reads as none). -/
def lookupInfo (st : RegistryState) (pid : Nat) : Option InfoRecord :=
  alookup st.info pid

/-- Redis lrange process:<pid>:logs 0 -1 (missing key reads as empty). -/
def lookupLogs (st : RegistryState) (pid : Nat) : List LogEntry :=
  (alookup st.logs pid).getD []

/-- Contents of the durable log file at a path, one element per write_log. -/
def fileLines (st : RegistryState) (path : String) : List String :=
  (alookup st.files path).getD []

/-- Redis hset of some fields of process:<pid>:info: reads the current hash
(creating an empty one if the key is absent, as hset does) and applies the
field update. -/
def hsetInfo (st : RegistryState) (pid : Nat) (f : InfoRecord → InfoRecord) :
    RegistryState :=
  { st with info := aset st.info pid (f ((lookupInfo st pid).getD {})) }

/-- Redis rpush process:<pid>:logs. -/
def rpushLog (st : RegistryState) (pid : Nat) (e : LogEntry) : RegistryState :=
  { st with logs := aset st.logs pid (lookupLogs st pid ++ [e]) }

/-- One write_log call: append a chunk to the durable log file. -/
def appendFile (st : RegistryState) (path : String) (ls : List String) :
    RegistryState :=
  { st with files := aset st.files path (fileLines st path ++ ls) }

/-- Python str.rstrip() with no arguments: drop trailing whitespace. -/
def rstrip (s : String) : String :=
  String.mk ((s.data.reverse.dropWhile (fun c => c.isWhitespace)).reverse)

/-- os.path.basename for the slash-separated paths used here. -/
def basename (p : String) : String :=
  (p.splitOn "/").getLastD p

/-- Projection used in theorem statements: the recorded exit_code of a pid
(hget process:<pid>:info exit_code). -/
def exitOf (st : RegistryState) (pid : Nat) : Option Int :=
  (lookupInfo st pid).bind (fun r => r.exit_code)

/-- Projection used in theorem statements: the recorded ended_at of a pid. -/
def endedOf (st : RegistryState) (pid : Nat) : Option Nat :=
  (lookupInfo st pid).bind (fun r => r.ended_at)

/-- Projection used in theorem statements: the recorded error field of a pid. -/
def errorOf (st : RegistryState) (pid : Nat) : Option String :=
  (lookupInfo st pid).bind (fun r => r.error)

/-- start_process (src/src/process.py lines 87-132). The OS spawn outcome is
a parameter: Except.error e models asyncio.create_subprocess_shell raising
(bad working directory), Except.ok pid a successful spawn returning the OS
pid. On success the process object is stored in _process_objects, the info
hash is written (hset mapping: cmd, cwd, started_at, pid, log_file, env —
other fields of a pre-existing hash under a reused pid survive, as hset
does), and the pump task is created but NOT run: the function returns the
pid at once. On spawn failure the exception propagates before any state
is written. -/
def start_process (st : RegistryState) (command cwd : String)
    (envKey : Option String) (spawn : Except String Nat) (t : Nat) :
    Except String Nat × RegistryState :=
  match spawn with
  | Except.error e => (Except.error e, st)
  | Except.ok pid =>
    let logPath := cwd ++ "/run.log"
    let base := (lookupInfo st pid).getD {}
    let newRec : InfoRecord :=
      { base with
        cmd := command, cwd := cwd, started_at := t, pid := pid,
        log_file := logPath,
        env := match envKey with | some e => e | none => basename cwd }
    (Except.ok pid,
     { st with
       procObjects :=
         if pid ∈ st.procObjects then st.procObjects
         else st.procObjects ++ [pid],
       info := aset st.info pid newRec })

/-- The four shapes of string that stop_process can return. -/
inductive StopOutcome where
  | notFound
  | alreadyStopped (code : Int)
  | sentSignal (force : Bool)
  | stopError (msg : String)
deriving Repr, DecidableEq

/-- The literal message strings stop_process returns for each outcome. -/
def stopMessage (pid : Nat) : StopOutcome → String
  | StopOutcome.notFound => "Process " ++ toString pid ++ " not found"
  | StopOutcome.alreadyStopped c =>
    "Process " ++ toString pid ++ " already stopped (exit code: " ++
      toString c ++ ")"
  | StopOutcome.sentSignal true => "Sent SIGKILL to PID " ++ toString pid
  | StopOutcome.sentSignal false => "Sent SIGTERM to PID " ++ toString pid
  | StopOutcome.stopError e =>
    "Error stopping process " ++ toString pid ++ ": " ++ e

/-- stop_process (src/src/process.py lines 135-168). Checks membership in
_process_objects, then hget exit_code, then signals the process. killExn
models whether proc.kill()/proc.terminate() raises (some e = the caught
exception's message). The Redis record is never written; a delivered
signal is appended to sigLog. -/
def stop_process (st : RegistryState) (pid : Nat) (force : Bool)
    (killExn : Option String) : StopOutcome × RegistryState :=
  if pid ∈ st.procObjects then
    match (lookupInfo st pid).bind (fun r => r.exit_code) with
    | some c => (StopOutcome.alreadyStopped c, st)
    | none =>
      match killExn with
      | none =>
        (StopOutcome.sentSignal force,
         { st with sigLog := st.sigLog ++ [(pid, force)] })
      | some e => (StopOutcome.stopError e, st)
  else (StopOutcome.notFound, st)

/-- One row of the list_all_processes result: the info hash plus the log
count and the os.kill(pid, 0) liveness probe. -/
structure ProcListEntry where
  pid : Nat
  info : InfoRecord
  log_count : Nat
  is_alive : Bool
deriving Repr, DecidableEq

/-- list_all_processes (src/src/process.py lines 171-201): one entry per
process:<pid>:info key, annotated with log count and a liveness probe
(alive models os.kill(pid, 0) succeeding). -/
def list_all_processes (st : RegistryState) (alive : Nat → Bool) :
    List ProcListEntry :=
  st.info.map (fun p => ⟨p.1, p.2, (lookupLogs st p.1).length, alive p.1⟩)

/-- The status string derived for one process by list_processes in
src/src/main.py (lines 512-531): "Stopped (exit code: c)" when the
exit_code field is present, "Running" otherwise. -/
def derivedStatus (r : InfoRecord) : String :=
  match r.exit_code with
  | some c => "Stopped (exit code: " ++ toString c ++ ")"
  | none => "Running"

/-- The dictionary returned by get_process_logs_data. -/
structure LogsData where
  info : InfoRecord
  logs : List LogEntry
  log_count : Nat
deriving Repr, DecidableEq

/-- get_process_logs_data (src/src/process.py lines 204-245): none when the
info hash is empty; otherwise the info plus, when the Python-truthy test
"if tail:" passes (tail given and nonzero), lrange -tail -1 (the last tail
entries, clipped), and the whole list otherwise. -/
def get_process_logs_data (st : RegistryState) (pid : Nat)
    (tail : Option Nat) : Option LogsData :=
  match lookupInfo st pid with
  | none => none
  | some pinfo =>
    let ls := lookupLogs st pid
    if ls.length = 0 then some ⟨pinfo, [], 0⟩
    else
      match tail with
      | some t =>
        if t = 0 then some ⟨pinfo, ls, ls.length⟩
        else some ⟨pinfo, ls.drop (ls.length - t), ls.length⟩
      | none => some ⟨pinfo, ls, ls.length⟩

/-- cleanup_process_object (src/src/process.py lines 253-256): removes the
in-memory process object only; Redis data is untouched. -/
def cleanup_process_object (st : RegistryState) (pid : Nat) : RegistryState :=
  { st with procObjects := st.procObjects.filter (fun q => q != pid) }

/-- The replacement command chosen by restart_cmd in src/src/main.py:
"bash <run_script>" when the environment has a truthy run_script entry,
"bash run.sh" otherwise. -/
def restartCommand (runScript : Option String) : String :=
  match runScript with
  | some s => if s = "" then "bash run.sh" else "bash " ++ s
  | none => "bash run.sh"

/-- restart_cmd (src/src/main.py lines 356-405): hgetall of the info hash
(raising ValueError when empty), a graceful (force=False) stop_process when
exit_code is absent, cleanup_process_object, deletion of both Redis keys,
then start_process with the replacement command in the same cwd. runScript
models get_current_environment_sync's run_script entry, killExn the stop's
signal outcome, spawn the new OS spawn, newly keyed by the fresh pid. -/
def restart_cmd (st : RegistryState) (pid : Nat) (runScript : Option String)
    (envKey : Option String) (killExn : Option String)
    (spawn : Except String Nat) (t : Nat) :
    Except String Nat × RegistryState :=
  match lookupInfo st pid with
  | none => (Except.error ("Process " ++ toString pid ++ " not found"), st)
  | some pinfo =>
    let cwd := pinfo.cwd
    let st1 :=
      if pinfo.exit_code = none then (stop_process st pid false killExn).2
      else st
    let st2 := cleanup_process_object st1 pid
    let st3 := { st2 with info := adel st2.info pid, logs := adel st2.logs pid }
    start_process st3 (restartCommand runScript) cwd envKey spawn t

/-- The 70-character separator line written around headers and footers. -/
def hline : String := String.mk (List.replicate 70 '=')

/-- The four write_log calls of the pump's header block (tstr models
time.ctime()). -/
def headerWrites (pid : Nat) (tstr : String) : List String :=
  ["\n" ++ hline ++ "\n",
   "Process started: PID " ++ toString pid ++ "\n",
   "Timestamp: " ++ tstr ++ "\n",
   hline ++ "\n\n"]

/-- The five write_log calls of the pump's footer block. -/
def footerWrites (pid : Nat) (code : Int) (tstr : String) : List String :=
  ["\n" ++ hline ++ "\n",
   "Process exited: PID " ++ toString pid ++ "\n",
   "Exit code: " ++ toString code ++ "\n",
   "Timestamp: " ++ tstr ++ "\n",
   hline ++ "\n\n"]

/-- Handling of one stdout line by the pump (lines 35-48 of process.py):
write_log "[STDOUT] <raw line>" then rpush a stdout LogEntry with the
rstripped text. -/
def processLine (pid : Nat) (path : String) (t : Nat) (st : RegistryState)
    (line : String) : RegistryState :=
  rpushLog (appendFile st path ["[STDOUT] " ++ line]) pid
    ⟨StreamKind.stdout, rstrip line, t⟩

/-- The pump's exception handler (lines 81-84 of process.py): write_log an
"[ERROR]" chunk and hset only the error field — exit_code and ended_at are
not written and the child is not waited on. -/
def errState (pid : Nat) (path : String) (emsg : String) (st : RegistryState) :
    RegistryState :=
  hsetInfo (appendFile st path ["\n[ERROR] " ++ emsg ++ "\n"]) pid
    (fun r => { r with error := some emsg })

/-- The await proc.wait() step of the pump. -/
def markWaited (pid : Nat) (st : RegistryState) : RegistryState :=
  { st with waited := pid :: st.waited }

/-- Handling of the (single, whole-buffer) stderr read of the pump (lines
54-67 of process.py): write_log "[STDERR] <data>\n" then rpush ONE stderr
LogEntry whose text is the entire decoded stderr buffer, unstripped. -/
def stderrState (pid : Nat) (path : String) (t : Nat) (sd : String)
    (st : RegistryState) : RegistryState :=
  rpushLog (appendFile st path ["[STDERR] " ++ sd ++ "\n"]) pid
    ⟨StreamKind.stderr, sd, t⟩

/-- The footer block followed by hset exit_code (lines 69-77): both become
visible at the await of the first hset. -/
def exitCodeState (pid : Nat) (path : String) (tstr : String) (code : Int)
    (st : RegistryState) : RegistryState :=
  hsetInfo (appendFile st path (footerWrites pid code tstr)) pid
    (fun r => { r with exit_code := some code })

/-- The separate, later hset ended_at (line 78). -/
def endedState (pid : Nat) (t : Nat) (st : RegistryState) : RegistryState :=
  hsetInfo st pid (fun r => { r with ended_at := some t })

/-- The states the registry passes through after stdout is exhausted on the
pump's normal path: after proc.wait(), after the stderr read (which pushes
an entry only when the buffer is nonempty), after hset exit_code (footer
included), after hset ended_at. -/
def tailStates (pid : Nat) (path : String) (code : Int) (sd tstr : String)
    (t : Nat) (st : RegistryState) : List RegistryState :=
  let s1 := markWaited pid st
  let s2 := if sd = "" then s1 else stderrState pid path t sd s1
  let s3 := exitCodeState pid path tstr code s2
  let s4 := endedState pid (t + 1) s3
  if sd = "" then [s1, s3, s4] else [s1, s2, s3, s4]

/-- The registry states observable at each await point of the pump's body
after the header, reading stdout line by line. failAt = some k injects the
I/O exception of the except branch after k stdout lines have been
processed (clipped to the number of available lines); failAt = none is the
exception-free run that reaches proc.wait(), the stderr read and the two
terminal hsets. -/
def pumpAux (pid : Nat) (path : String) (code : Int) (sd emsg tstr : String) :
    Nat → List String → Option Nat → RegistryState → List RegistryState
  | t, [], none, st => tailStates pid path code sd tstr t st
  | _, [], some _, st => [errState pid path emsg st]
  | _, _ :: _, some 0, st => [errState pid path emsg st]
  | t, l :: ls, none, st =>
    let st1 := processLine pid path t st l
    st1 :: pumpAux pid path code sd emsg tstr (t + 1) ls none st1
  | t, l :: ls, some (k + 1), st =>
    let st1 := processLine pid path t st l
    st1 :: pumpAux pid path code sd emsg tstr (t + 1) ls (some k) st1

/-- stream_process_output (src/src/process.py lines 15-84) as the sequence
of registry states observable at each await point: the state after the
header block, then the states produced by pumpAux. The child's behaviour
is a parameter: its stdout lines (raw, newline-terminated), an optional
injected stream failure, its exit code and its whole stderr buffer. -/
def stream_process_output_trace (st : RegistryState) (pid : Nat)
    (path : String) (lines : List String) (failAt : Option Nat)
    (emsg : String) (code : Int) (sd : String) (t0 : Nat) (tstr : String) :
    List RegistryState :=
  let s0 := appendFile st path (headerWrites pid tstr)
  s0 :: pumpAux pid path code sd emsg tstr t0 lines failAt s0

/-- The registry state after the pump task has run to completion. -/
def stream_process_output (st : RegistryState) (pid : Nat) (path : String)
    (lines : List String) (failAt : Option Nat) (emsg : String) (code : Int)
    (sd : String) (t0 : Nat) (tstr : String) : RegistryState :=
  (stream_process_output_trace st pid path lines failAt emsg code sd t0
    tstr).getLastD st

/-- Entries the pump pushes for a list of raw stdout lines starting at
timestamp t: one stdout entry per line, rstripped, in order. -/
def stdoutEntries (t : Nat) : List String → List LogEntry
  | [] => []
  | l :: ls => ⟨StreamKind.stdout, rstrip l, t⟩ :: stdoutEntries (t + 1) ls

/-- Concrete registry for claim C1: one running pid-5 record, no logs yet. -/
def stC1 : RegistryState :=
  { procObjects := [5],
    info := [(5, { cmd := "sleep 5", cwd := "/w", started_at := 0, pid := 5,
                   log_file := "/w/run.log", env := "w" })],
    logs := [(5, [])], files := [], waited := [], sigLog := [] }

/-- Concrete registry for claim C2: one running pid-5 record. -/
def stC2 : RegistryState :=
  { procObjects := [5],
    info := [(5, { cmd := "cat data", cwd := "/w", started_at := 0, pid := 5,
                   log_file := "/w/run.log", env := "w" })],
    logs := [(5, [])], files := [], waited := [], sigLog := [] }

/-- Concrete registry for claim C3: a running pid-5 record whose exit has
not yet been recorded by the pump. -/
def stC3 : RegistryState :=
  { procObjects := [5],
    info := [(5, { cmd := "sleep 60", cwd := "/w", started_at := 0, pid := 5,
                   log_file := "/w/run.log", env := "w" })],
    logs := [(5, [])], files := [], waited := [], sigLog := [] }

/-- Concrete registry for the C3 witness: pid 5 already terminal
(exit code 0 recorded). -/
def stC3term : RegistryState :=
  { procObjects := [5],
    info := [(5, { cmd := "true", cwd := "/w", started_at := 0, pid := 5,
                   log_file := "/w/run.log", env := "w",
                   exit_code := some 0, ended_at := some 9 })],
    logs := [(5, [])], files := [], waited := [5], sigLog := [] }

/-- Concrete registry for claim C4: one running pid-5 record. -/
def stC4 : RegistryState :=
  { procObjects := [5],
    info := [(5, { cmd := "sleep 60", cwd := "/w", started_at := 0, pid := 5,
                   log_file := "/w/run.log", env := "w" })],
    logs := [(5, [])], files := [], waited := [], sigLog := [] }

/-- Concrete registry for claim C5: a running pid-3 record started with a
command that is not "bash run.sh". -/
def stC5 : RegistryState :=
  { procObjects := [3],
    info := [(3, { cmd := "python app.py", cwd := "/w", started_at := 0,
                   pid := 3, log_file := "/w/run.log", env := "w" })],
    logs := [(3, [⟨StreamKind.stdout, "boot", 1⟩])], files := [],
    waited := [], sigLog := [] }

/-- Concrete registry for claim C7: one running pid-5 record, no logs yet. -/
def stC7 : RegistryState :=
  { procObjects := [5],
    info := [(5, { cmd := "build", cwd := "/w", started_at := 0, pid := 5,
                   log_file := "/w/run.log", env := "w" })],
    logs := [(5, [])], files := [], waited := [], sigLog := [] }

/-- Concrete registry for claim C8: an empty registry into which a command
with a missing interpreter is started. -/
def stC8 : RegistryState :=
  { procObjects := [], info := [], logs := [], files := [], waited := [],
    sigLog := [] }

/-- Concrete registry for claim C9: a pid-5 record with two log entries. -/
def stC9 : RegistryState :=
  { procObjects := [5],
    info := [(5, { cmd := "echo hi", cwd := "/w", started_at := 0, pid := 5,
                   log_file := "/w/run.log", env := "w" })],
    logs := [(5, [⟨StreamKind.stdout, "a", 1⟩, ⟨StreamKind.stdout, "b", 2⟩])],
    files := [], waited := [], sigLog := [] }

/-- Concrete registry for claim C10: a pid-5 record with a live handle and
one log entry. -/
def stC10 : RegistryState :=
  { procObjects := [5],
    info := [(5, { cmd := "serve", cwd := "/w", started_at := 0, pid := 5,
                   log_file := "/w/run.log", env := "w" })],
    logs := [(5, [⟨StreamKind.stdout, "ready", 1⟩])], files := [],
    waited := [], sigLog := [] }

theorem alookup_aset_self {κ α : Type} [DecidableEq κ]
    (l : List (κ × α)) (k : κ) (v : α) : alookup (aset l k v) k = some v := by
  induction l with
  | nil => simp [aset, alookup]
  | cons p t ih =>
    by_cases h : p.1 = k
    · simp [aset, alookup, h]
    · simp [aset, alookup, h, ih]

theorem alookup_aset_ne {κ α : Type} [DecidableEq κ]
    (l : List (κ × α)) (k k' : κ) (v : α) (h : k' ≠ k) :
    alookup (aset l k v) k' = alookup l k' := by
  have hk : ¬(k = k') := Ne.symm h
  induction l with
  | nil => simp [aset, alookup, hk]
  | cons p t ih =>
    by_cases hp : p.1 = k
    · simp [aset, alookup, hp, hk]
    · simp [aset, alookup, hp, ih]

theorem alookup_adel_self {κ α : Type} [DecidableEq κ]
    (l : List (κ × α)) (k : κ) : alookup (adel l k) k = none := by
  induction l with
  | nil => simp [adel, alookup]
  | cons p t ih =>
    by_cases hp : p.1 = k
    · simp [adel, hp, ih]
    · simp [adel, alookup, hp, ih]

theorem alookup_adel_ne {κ α : Type} [DecidableEq κ]
    (l : List (κ × α)) (k k' : κ) (h : k' ≠ k) :
    alookup (adel l k) k' = alookup l k' := by
  have hk : ¬(k = k') := Ne.symm h
  induction l with
  | nil => simp [adel]
  | cons p t ih =>
    by_cases hp : p.1 = k
    · simp [adel, alookup, hp, hk, ih]
    · simp [adel, alookup, hp, ih]

theorem not_mem_map_fst_adel {κ α : Type} [DecidableEq κ]
    (l : List (κ × α)) (k : κ) : k ∉ (adel l k).map Prod.fst := by
  induction l with
  | nil => simp [adel]
  | cons p t ih =>
    by_cases hp : p.1 = k
    · simp [adel, hp, ih]
    · have hk : ¬(k = p.1) := fun hh => hp hh.symm
      simp [adel, hp, ih, hk]

theorem mem_map_fst_aset_iff {κ α : Type} [DecidableEq κ]
    (l : List (κ × α)) (k q : κ) (v : α) :
    q ∈ (aset l k v).map Prod.fst ↔ (q = k ∨ q ∈ l.map Prod.fst) := by
  induction l with
  | nil => simp [aset]
  | cons p t ih =>
    by_cases hp : p.1 = k
    · subst hp
      simp [aset]
    · simp [aset, hp, ih]
      tauto

/-- The shared mutable state of src/src/process.py: the module dict
_process_objects (procObjects), the Redis hashes process:<pid>:info (info),
the Redis lists process:<pid>:logs (logs), the durable run.log files
(files, keyed by path, one element per write_log call), plus two
instrumentation traces of externally visible effects: waited records the
pids whose proc.wait() completed, sigLog records every signal actually
delivered by proc.kill()/proc.terminate() as (pid, force). -/

theorem lookupInfo_hsetInfo_self (st : RegistryState) (pid : Nat)
    (f : InfoRecord → InfoRecord) :
    lookupInfo (hsetInfo st pid f) pid
      = some (f ((lookupInfo st pid).getD {})) := by
  simp [lookupInfo, hsetInfo, alookup_aset_self]

theorem getD_exit (st : RegistryState) (pid : Nat) :
    ((lookupInfo st pid).getD {}).exit_code = exitOf st pid := by
  cases h : lookupInfo st pid <;> simp [exitOf, h]

theorem getD_ended (st : RegistryState) (pid : Nat) :
    ((lookupInfo st pid).getD {}).ended_at = endedOf st pid := by
  cases h : lookupInfo st pid <;> simp [endedOf, h]

theorem lookupInfo_appendFile (st : RegistryState) (path : String)
    (ls : List String) (q : Nat) :
    lookupInfo (appendFile st path ls) q = lookupInfo st q := rfl

theorem exitOf_markWaited (pid q : Nat) (st : RegistryState) :
    exitOf (markWaited pid st) q = exitOf st q := rfl

theorem endedOf_markWaited (pid q : Nat) (st : RegistryState) :
    endedOf (markWaited pid st) q = endedOf st q := rfl

theorem exitOf_appendFile (st : RegistryState) (path : String)
    (ls : List String) (q : Nat) : exitOf (appendFile st path ls) q = exitOf st q := rfl

theorem endedOf_appendFile (st : RegistryState) (path : String)
    (ls : List String) (q : Nat) : endedOf (appendFile st path ls) q = endedOf st q := rfl

theorem exitOf_processLine (pid : Nat) (path : String) (t : Nat)
    (st : RegistryState) (l : String) (q : Nat) :
    exitOf (processLine pid path t st l) q = exitOf st q := rfl

theorem endedOf_processLine (pid : Nat) (path : String) (t : Nat)
    (st : RegistryState) (l : String) (q : Nat) :
    endedOf (processLine pid path t st l) q = endedOf st q := rfl

theorem exitOf_stderrState (pid : Nat) (path : String) (t : Nat) (sd : String)
    (st : RegistryState) (q : Nat) :
    exitOf (stderrState pid path t sd st) q = exitOf st q := rfl

theorem endedOf_stderrState (pid : Nat) (path : String) (t : Nat)
    (sd : String) (st : RegistryState) (q : Nat) :
    endedOf (stderrState pid path t sd st) q = endedOf st q := rfl

theorem exitOf_exitCodeState (pid : Nat) (path tstr : String) (code : Int)
    (st : RegistryState) :
    exitOf (exitCodeState pid path tstr code st) pid = some code := by
  simp [exitOf, exitCodeState, lookupInfo_hsetInfo_self]

theorem endedOf_exitCodeState (pid : Nat) (path tstr : String) (code : Int)
    (st : RegistryState) :
    endedOf (exitCodeState pid path tstr code st) pid = endedOf st pid := by
  simp [endedOf, exitCodeState, lookupInfo_hsetInfo_self]
  rw [lookupInfo_appendFile]
  exact getD_ended st pid

theorem exitOf_endedState (pid t : Nat) (st : RegistryState) :
    exitOf (endedState pid t st) pid = exitOf st pid := by
  simp [exitOf, endedState, lookupInfo_hsetInfo_self]
  exact getD_exit st pid

theorem endedOf_endedState (pid t : Nat) (st : RegistryState) :
    endedOf (endedState pid t st) pid = some t := by
  simp [endedOf, endedState, lookupInfo_hsetInfo_self]

theorem exitOf_errState (pid : Nat) (path emsg : String) (st : RegistryState) :
    exitOf (errState pid path emsg st) pid = exitOf st pid := by
  simp [exitOf, errState, lookupInfo_hsetInfo_self]
  rw [lookupInfo_appendFile]
  exact getD_exit st pid

theorem endedOf_errState (pid : Nat) (path emsg : String) (st : RegistryState) :
    endedOf (errState pid path emsg st) pid = endedOf st pid := by
  simp [endedOf, errState, lookupInfo_hsetInfo_self]
  rw [lookupInfo_appendFile]
  exact getD_ended st pid

theorem errorOf_errState (pid : Nat) (path emsg : String) (st : RegistryState) :
    errorOf (errState pid path emsg st) pid = some emsg := by
  simp [errorOf, errState, lookupInfo_hsetInfo_self]

theorem waited_errState (pid : Nat) (path emsg : String) (st : RegistryState) :
    (errState pid path emsg st).waited = st.waited := rfl

theorem waited_processLine (pid : Nat) (path : String) (t : Nat)
    (st : RegistryState) (l : String) :
    (processLine pid path t st l).waited = st.waited := rfl

theorem lookupLogs_rpushLog_self (st : RegistryState) (pid : Nat)
    (e : LogEntry) : lookupLogs (rpushLog st pid e) pid = lookupLogs st pid ++ [e] := by
  simp [lookupLogs, rpushLog, alookup_aset_self]

theorem lookupLogs_processLine (pid : Nat) (path : String) (t : Nat)
    (st : RegistryState) (l : String) :
    lookupLogs (processLine pid path t st l) pid
      = lookupLogs st pid ++ [⟨StreamKind.stdout, rstrip l, t⟩] := by
  simp [processLine, lookupLogs_rpushLog_self]
  rfl

theorem lookupLogs_stderrState (pid : Nat) (path : String) (t : Nat)
    (sd : String) (st : RegistryState) :
    lookupLogs (stderrState pid path t sd st) pid
      = lookupLogs st pid ++ [⟨StreamKind.stderr, sd, t⟩] := by
  simp [stderrState, lookupLogs_rpushLog_self]
  rfl

theorem lookupLogs_errState (pid : Nat) (path emsg : String)
    (st : RegistryState) :
    lookupLogs (errState pid path emsg st) pid = lookupLogs st pid := rfl

theorem lookupLogs_markWaited (pid q : Nat) (st : RegistryState) :
    lookupLogs (markWaited pid st) q = lookupLogs st q := rfl

theorem lookupLogs_exitCodeState (pid : Nat) (path tstr : String) (code : Int)
    (st : RegistryState) (q : Nat) :
    lookupLogs (exitCodeState pid path tstr code st) q = lookupLogs st q := rfl

theorem lookupLogs_endedState (pid t : Nat) (st : RegistryState) (q : Nat) :
    lookupLogs (endedState pid t st) q = lookupLogs st q := rfl

theorem stop_process_snd (st : RegistryState) (pid : Nat) (force : Bool)
    (kx : Option String) :
    (stop_process st pid force kx).2 = st ∨
    (stop_process st pid force kx).2
      = { st with sigLog := st.sigLog ++ [(pid, force)] } := by
  unfold stop_process
  by_cases h : pid ∈ st.procObjects
  · rw [if_pos h]
    cases hx : (lookupInfo st pid).bind (fun r => r.exit_code) with
    | none =>
      cases kx with
      | none => right; rfl
      | some e => left; rfl
    | some c => left; rfl
  · rw [if_neg h]
    left
    rfl

theorem lookupInfo_stop_process (st : RegistryState) (pid q : Nat)
    (force : Bool) (kx : Option String) :
    lookupInfo (stop_process st pid force kx).2 q = lookupInfo st q := by
  rcases stop_process_snd st pid force kx with h | h
  · rw [h]
  · rw [h]
    rfl

theorem list_all_processes_pids (st : RegistryState) (alive : Nat → Bool) :
    (list_all_processes st alive).map ProcListEntry.pid
      = st.info.map Prod.fst := by
  simp [list_all_processes, List.map_map]

theorem pumpAux_none_all (pid : Nat) (path : String) (code : Int)
    (sd emsg tstr : String) :
    ∀ (lines : List String) (t : Nat) (st : RegistryState),
      exitOf st pid = none → endedOf st pid = none →
      ∀ s ∈ pumpAux pid path code sd emsg tstr t lines none st,
        ((endedOf s pid).isSome → exitOf s pid = some code) ∧
        (exitOf s pid = none ∨ exitOf s pid = some code) := by
  intro lines
  induction lines with
  | nil =>
    intro t st hx he s hs
    by_cases hsd : sd = "" <;> simp [pumpAux, tailStates, hsd] at hs
    · rcases hs with rfl | rfl | rfl <;>
        simp [exitOf_markWaited, endedOf_markWaited, exitOf_exitCodeState,
          endedOf_exitCodeState, exitOf_endedState, endedOf_endedState,
          exitOf_stderrState, endedOf_stderrState, hx, he]
    · rcases hs with rfl | rfl | rfl | rfl <;>
        simp [exitOf_markWaited, endedOf_markWaited, exitOf_exitCodeState,
          endedOf_exitCodeState, exitOf_endedState, endedOf_endedState,
          exitOf_stderrState, endedOf_stderrState, hx, he]
  | cons l ls ih =>
    intro t st hx he s hs
    simp only [pumpAux, List.mem_cons] at hs
    rcases hs with rfl | hs
    · simp [exitOf_processLine, endedOf_processLine, hx, he]
    · exact ih (t + 1) (processLine pid path t st l)
        (by rw [exitOf_processLine]; exact hx)
        (by rw [endedOf_processLine]; exact he) s hs

theorem pumpAux_none_getLast (pid : Nat) (path : String) (code : Int)
    (sd emsg tstr : String) :
    ∀ (lines : List String) (t : Nat) (st d : RegistryState),
      exitOf ((pumpAux pid path code sd emsg tstr t lines none st).getLastD d)
          pid = some code ∧
      (endedOf ((pumpAux pid path code sd emsg tstr t lines none st).getLastD
          d) pid).isSome := by
  intro lines
  induction lines with
  | nil =>
    intro t st d
    by_cases hsd : sd = "" <;>
      simp [pumpAux, tailStates, hsd, exitOf_endedState, exitOf_exitCodeState,
        endedOf_endedState]
  | cons l ls ih =>
    intro t st d
    simp only [pumpAux]
    rw [List.getLastD_cons]
    exact ih (t + 1) (processLine pid path t st l) (processLine pid path t st l)

theorem pumpAux_fail_getLast (pid : Nat) (path : String) (code : Int)
    (sd emsg tstr : String) :
    ∀ (lines : List String) (k t : Nat) (st d : RegistryState),
      errorOf ((pumpAux pid path code sd emsg tstr t lines (some k)
          st).getLastD d) pid = some emsg ∧
      exitOf ((pumpAux pid path code sd emsg tstr t lines (some k)
          st).getLastD d) pid = exitOf st pid ∧
      endedOf ((pumpAux pid path code sd emsg tstr t lines (some k)
          st).getLastD d) pid = endedOf st pid ∧
      ((pumpAux pid path code sd emsg tstr t lines (some k) st).getLastD
          d).waited = st.waited ∧
      lookupLogs ((pumpAux pid path code sd emsg tstr t lines (some k)
          st).getLastD d) pid
        = lookupLogs st pid ++ stdoutEntries t (lines.take k) := by
  intro lines
  induction lines with
  | nil =>
    intro k t st d
    simp [pumpAux, errorOf_errState, exitOf_errState, endedOf_errState,
      waited_errState, lookupLogs_errState, stdoutEntries]
  | cons l ls ih =>
    intro k t st d
    cases k with
    | zero =>
      simp [pumpAux, errorOf_errState, exitOf_errState, endedOf_errState,
        waited_errState, lookupLogs_errState, stdoutEntries]
    | succ k =>
      simp only [pumpAux]
      rw [List.getLastD_cons]
      have h := ih k (t + 1) (processLine pid path t st l)
        (processLine pid path t st l)
      refine ⟨h.1, ?_, ?_, ?_, ?_⟩
      · rw [h.2.1, exitOf_processLine]
      · rw [h.2.2.1, endedOf_processLine]
      · rw [h.2.2.2.1, waited_processLine]
      · rw [h.2.2.2.2, lookupLogs_processLine]
        simp [stdoutEntries, List.take_succ_cons, List.append_assoc]

theorem pumpAux_none_logs (pid : Nat) (path : String) (code : Int)
    (sd emsg tstr : String) :
    ∀ (lines : List String) (t : Nat) (st d : RegistryState),
      lookupLogs ((pumpAux pid path code sd emsg tstr t lines none
          st).getLastD d) pid
        = lookupLogs st pid ++ stdoutEntries t lines ++
          (if sd = "" then []
           else [⟨StreamKind.stderr, sd, t + lines.length⟩]) := by
  intro lines
  induction lines with
  | nil =>
    intro t st d
    by_cases hsd : sd = ""
    · simp [pumpAux, tailStates, hsd, stdoutEntries, lookupLogs_endedState,
        lookupLogs_exitCodeState, lookupLogs_markWaited]
    · simp [pumpAux, tailStates, hsd, stdoutEntries, lookupLogs_endedState,
        lookupLogs_exitCodeState, lookupLogs_stderrState,
        lookupLogs_markWaited]
  | cons l ls ih =>
    intro t st d
    simp only [pumpAux]
    rw [List.getLastD_cons,
      ih (t + 1) (processLine pid path t st l) (processLine pid path t st l),
      lookupLogs_processLine]
    have ht : t + 1 + ls.length = t + (ls.length + 1) := by omega
    simp only [List.length_cons, ht, stdoutEntries]
    by_cases hsd : sd = "" <;> simp [hsd, List.append_assoc]

/-- C3 (counterexample): two sequential forced stops on a running pid whose
exit has not yet been recorded by the pump: the second call returns
"Sent SIGKILL" again — not AlreadyStopped — and a second SIGKILL is
actually delivered (two entries in the signal trace). -/
theorem C3_counterexample :
    (stop_process stC3 5 true none).1 = StopOutcome.sentSignal true ∧
    (stop_process (stop_process stC3 5 true none).2 5 true none).1
      = StopOutcome.sentSignal true ∧
    (stop_process (stop_process stC3 5 true none).2 5 true none).2.sigLog
      = [(5, true), (5, true)] := by decide

/-- C3 (amended): stop_process returns NotFound when the pid has no live
handle; when the handle exists and an exit code is already recorded it
returns AlreadyStopped with that code and leaves the state unchanged; and
in every case it never mutates the record or the logs. A second sequential
stop returns AlreadyStopped only when the pump has recorded the exit in
between; otherwise the code re-sends the signal (or reports a caught
signal error), never crashing and never touching the record. -/
theorem C3_amended (st : RegistryState) (pid : Nat) (force : Bool)
    (kx : Option String) :
    (pid ∉ st.procObjects →
      stop_process st pid force kx = (StopOutcome.notFound, st)) ∧
    (∀ c, pid ∈ st.procObjects → exitOf st pid = some c →
      stop_process st pid force kx = (StopOutcome.alreadyStopped c, st)) ∧
    lookupInfo (stop_process st pid force kx).2 pid = lookupInfo st pid ∧
    lookupLogs (stop_process st pid force kx).2 pid = lookupLogs st pid := by
  refine ⟨?_, ?_, lookupInfo_stop_process st pid pid force kx, ?_⟩
  · intro h
    simp [stop_process, h]
  · intro c hm hx
    unfold stop_process
    rw [if_pos hm]
    rw [show (lookupInfo st pid).bind (fun r => r.exit_code) = some c from hx]
  · rcases stop_process_snd st pid force kx with h | h
    · rw [h]
    · rw [h]
      rfl

/-- C3 (witness): on a registry whose pid-5 record is already terminal with
exit code 0, stop_process returns AlreadyStopped 0 and leaves the state
unchanged. -/
theorem C3_witness :
    (5 ∈ stC3term.procObjects) ∧ exitOf stC3term 5 = some 0 ∧
    stop_process stC3term 5 true none
      = (StopOutcome.alreadyStopped 0, stC3term) :=
  ⟨by decide, by decide,
   (C3_amended stC3term 5 true none).2.1 0 (by decide) (by decide)⟩

/-- C4 (counterexample): stop_process writes nothing to the record (the
state has no stop-requested field at all, and the record is unchanged),
and the status string derived for a nonzero exit is "Stopped (exit code:
1)" — the statuses Terminated and Failed do not exist in the code. -/
theorem C4_counterexample :
    lookupInfo (stop_process stC4 5 true none).2 5 = lookupInfo stC4 5 ∧
    derivedStatus { cmd := "x", cwd := "/w", exit_code := some 1 }
      = "Stopped (exit code: 1)" ∧
    derivedStatus { cmd := "x", cwd := "/w", exit_code := some 1 }
      ≠ "Terminated" ∧
    derivedStatus { cmd := "x", cwd := "/w", exit_code := some 1 }
      ≠ "Failed" := by decide

/-- C4 (amended): stop_process records no stop-requested mark (the record
is unchanged by every stop call), and the derived status of
list_processes is a pure function of the presence of exit_code alone:
"Running" while it is absent and "Stopped (exit code: c)" once it holds c
— there is no Terminated / Failed distinction. -/
theorem C4_amended (st : RegistryState) (pid : Nat) (force : Bool)
    (kx : Option String) (r : InfoRecord) :
    lookupInfo (stop_process st pid force kx).2 pid = lookupInfo st pid ∧
    (r.exit_code = none → derivedStatus r = "Running") ∧
    (∀ c, r.exit_code = some c →
      derivedStatus r = "Stopped (exit code: " ++ toString c ++ ")") := by
  refine ⟨lookupInfo_stop_process st pid pid force kx, ?_, ?_⟩
  · intro h
    simp [derivedStatus, h]
  · intro c h
    simp [derivedStatus, h]

/-- C4 (witness): a forced stop of the running pid-5 record leaves its
record unchanged, and the two status shapes evaluate as stated. -/
theorem C4_witness :
    ({ cmd := "x", exit_code := some 5 } : InfoRecord).exit_code = some 5 ∧
    derivedStatus { cmd := "x", exit_code := some 5 }
      = "Stopped (exit code: " ++ toString (5 : Int) ++ ")" :=
  ⟨by decide,
   (C4_amended stC4 5 true none
     { cmd := "x", exit_code := some 5 }).2.2 5 (by decide)⟩

/-- C6: start_process returns the pid as soon as the child is spawned: the
returned value is Except.ok pid, no log entry has been consumed, no log
file write has happened, the child has not been waited on, and the fresh
record has neither exit_code nor ended_at set — the pump that drains
output and records completion has not run inside start. -/
theorem C6_theorem (st : RegistryState) (command cwd : String)
    (ek : Option String) (pid t : Nat) (h : lookupInfo st pid = none) :
    (start_process st command cwd ek (Except.ok pid) t).1 = Except.ok pid ∧
    (start_process st command cwd ek (Except.ok pid) t).2.logs = st.logs ∧
    (start_process st command cwd ek (Except.ok pid) t).2.files = st.files ∧
    (start_process st command cwd ek (Except.ok pid) t).2.waited
      = st.waited ∧
    exitOf (start_process st command cwd ek (Except.ok pid) t).2 pid
      = none ∧
    endedOf (start_process st command cwd ek (Except.ok pid) t).2 pid
      = none ∧
    (lookupInfo (start_process st command cwd ek (Except.ok pid) t).2
        pid).map InfoRecord.cmd = some command := by
  have h' : alookup st.info pid = none := h
  refine ⟨rfl, rfl, rfl, rfl, ?_, ?_, ?_⟩
  · simp [start_process, exitOf, lookupInfo, alookup_aset_self, h']
  · simp [start_process, endedOf, lookupInfo, alookup_aset_self, h']
  · simp [start_process, lookupInfo, alookup_aset_self]

/-- C6 (witness): starting pid 9 in an empty registry returns Except.ok 9
with no output consumed and no terminal fields set. -/
theorem C6_witness :
    lookupInfo ⟨[], [], [], [], [], []⟩ 9 = none ∧
    (start_process ⟨[], [], [], [], [], []⟩ "sleep 100" "/w" none
        (Except.ok 9) 4).1 = Except.ok 9 ∧
    exitOf (start_process ⟨[], [], [], [], [], []⟩ "sleep 100" "/w" none
        (Except.ok 9) 4).2 9 = none :=
  ⟨by decide,
   (C6_theorem ⟨[], [], [], [], [], []⟩ "sleep 100" "/w" none 9 4
     (by decide)).1,
   (C6_theorem ⟨[], [], [], [], [], []⟩ "sleep 100" "/w" none 9 4
     (by decide)).2.2.2.2.1⟩

/-- C8 (counterexample): a command whose interpreter is missing does not
make create_subprocess_shell raise — /bin/sh itself launches, so the
spawn outcome is Except.ok. Starting such a command therefore returns a
pid and DOES create both a registry record and an in-memory entry, and
the launch failure surfaces only afterwards, as the shell's exit code 127
recorded by the pump — contradicting the claim that no record is created
whenever the command cannot be launched. -/
theorem C8_counterexample :
    (start_process stC8 "nosuchinterp app.py" "/w" none (Except.ok 6)
        0).1.toOption = some 6 ∧
    (lookupInfo (start_process stC8 "nosuchinterp app.py" "/w" none
        (Except.ok 6) 0).2 6).isSome ∧
    6 ∈ (start_process stC8 "nosuchinterp app.py" "/w" none (Except.ok 6)
        0).2.procObjects ∧
    exitOf (stream_process_output
        (start_process stC8 "nosuchinterp app.py" "/w" none (Except.ok 6)
          0).2
        6 "/w/run.log" [] none "" 127 "/bin/sh: 1: nosuchinterp: not found\n"
        0 "T") 6 = some 127 := by decide

/-- C8 (amended): when the spawn itself raises — which under
create_subprocess_shell happens for a nonexistent working directory but
NOT for an unlaunchable command — the exception propagates and no record
or in-memory entry is created; when the spawn succeeds (the shell starts,
as it does for a missing interpreter), start returns the pid, creates the
record and the in-memory entry, and any launch failure can only surface
later as the exit code the pump records. -/
theorem C8_amended (st : RegistryState) (command cwd : String)
    (ek : Option String) (e : String) (pid : Nat) (t : Nat) (path : String)
    (lines : List String) (code : Int) (sd emsg tstr : String) (t0 : Nat) :
    start_process st command cwd ek (Except.error e) t
      = (Except.error e, st) ∧
    (start_process st command cwd ek (Except.ok pid) t).1 = Except.ok pid ∧
    (lookupInfo (start_process st command cwd ek (Except.ok pid) t).2
        pid).isSome ∧
    pid ∈ (start_process st command cwd ek (Except.ok pid) t).2.procObjects ∧
    exitOf (stream_process_output
        (start_process st command cwd ek (Except.ok pid) t).2 pid path lines
        none emsg code sd t0 tstr) pid = some code := by
  refine ⟨rfl, rfl, ?_, ?_, ?_⟩
  · simp [start_process, lookupInfo, alookup_aset_self]
  · by_cases hm : pid ∈ st.procObjects <;> simp [start_process, hm]
  · have hrw : stream_process_output
        (start_process st command cwd ek (Except.ok pid) t).2 pid path lines
        none emsg code sd t0 tstr
        = (pumpAux pid path code sd emsg tstr t0 lines none
            (appendFile
              (start_process st command cwd ek (Except.ok pid) t).2 path
              (headerWrites pid tstr))).getLastD
            (appendFile
              (start_process st command cwd ek (Except.ok pid) t).2 path
              (headerWrites pid tstr)) := by
      simp only [stream_process_output, stream_process_output_trace]
      rw [List.getLastD_cons]
    rw [hrw]
    exact (pumpAux_none_getLast pid path code sd emsg tstr lines t0 _ _).1

/-- C9 (counterexample): with tail = 0 on a process that has two log
entries, get_process_logs_data returns both entries — not the last 0
entries ([]) — because Python's "if tail:" treats 0 as absent. -/
theorem C9_counterexample :
    (get_process_logs_data stC9 5 (some 0)).map LogsData.logs
      = some [⟨StreamKind.stdout, "a", 1⟩, ⟨StreamKind.stdout, "b", 2⟩] ∧
    some ([] : List LogEntry)
      ≠ (get_process_logs_data stC9 5 (some 0)).map LogsData.logs := by
  decide

/-- C9 (amended): get_process_logs_data is none for an unknown id; for a
known id it returns the record snapshot, the log count, and the last tail
entries when tail is given and positive — but the FULL sequence when tail
is 0 (Python truthiness) or not given. -/
theorem C9_amended (st : RegistryState) (pid : Nat) (tail : Option Nat) :
    (lookupInfo st pid = none → get_process_logs_data st pid tail = none) ∧
    (∀ r, lookupInfo st pid = some r →
      get_process_logs_data st pid tail
        = some ⟨r,
            (match tail with
             | some tq =>
               if tq = 0 then lookupLogs st pid
               else (lookupLogs st pid).drop ((lookupLogs st pid).length - tq)
             | none => lookupLogs st pid),
            (lookupLogs st pid).length⟩) := by
  constructor
  · intro h
    simp [get_process_logs_data, h]
  · intro r h
    simp only [get_process_logs_data, h]
    by_cases hl : (lookupLogs st pid).length = 0
    · have hnil : lookupLogs st pid = [] := List.length_eq_zero.mp hl
      cases tail with
      | none => simp [hl, hnil]
      | some tq => by_cases h0 : tq = 0 <;> simp [hl, hnil, h0]
    · cases tail with
      | none => simp [hl]
      | some tq => by_cases h0 : tq = 0 <;> simp [hl, h0]

/-- C9 (witness): on the two-entry registry, tail = 1 returns exactly the
last entry, and an unknown id returns none. -/
theorem C9_witness :
    lookupInfo stC9 5
      = some { cmd := "echo hi", cwd := "/w", started_at := 0, pid := 5,
               log_file := "/w/run.log", env := "w" } ∧
    get_process_logs_data stC9 5 (some 1)
      = some ⟨{ cmd := "echo hi", cwd := "/w", started_at := 0, pid := 5,
                log_file := "/w/run.log", env := "w" },
              [⟨StreamKind.stdout, "b", 2⟩], 2⟩ :=
  ⟨by decide, by
    have h := (C9_amended stC9 5 (some 1)).2
      { cmd := "echo hi", cwd := "/w", started_at := 0, pid := 5,
        log_file := "/w/run.log", env := "w" } (by decide)
    simpa using h⟩

/-- C10: after cleanup_process_object removes the in-memory handle, the
record and logs are still returned by get_process_logs_data (unchanged),
but stop_process reports NotFound, because its not-found check consults
_process_objects rather than the Redis record. -/
theorem C10_theorem (st : RegistryState) (pid : Nat) (tail : Option Nat)
    (force : Bool) (kx : Option String) (r : InfoRecord)
    (h : lookupInfo st pid = some r) :
    get_process_logs_data (cleanup_process_object st pid) pid tail
      = get_process_logs_data st pid tail ∧
    (get_process_logs_data (cleanup_process_object st pid) pid tail).isSome ∧
    (stop_process (cleanup_process_object st pid) pid force kx).1
      = StopOutcome.notFound := by
  have hc : get_process_logs_data (cleanup_process_object st pid) pid tail
      = get_process_logs_data st pid tail := rfl
  refine ⟨hc, ?_, ?_⟩
  · rw [hc]
    simp only [get_process_logs_data, h]
    by_cases hl : (lookupLogs st pid).length = 0
    · simp [hl]
    · cases tail with
      | none => simp [hl]
      | some tq => by_cases h0 : tq = 0 <;> simp [hl, h0]
  · have hm : pid ∉ (cleanup_process_object st pid).procObjects := by
      simp [cleanup_process_object, List.mem_filter]
    simp [stop_process, hm]

/-- C10 (witness): on the concrete registry, after cleanup of pid 5 the
logs are still readable while stop reports NotFound. -/
theorem C10_witness :
    lookupInfo stC10 5
      = some { cmd := "serve", cwd := "/w", started_at := 0, pid := 5,
               log_file := "/w/run.log", env := "w" } ∧
    (get_process_logs_data (cleanup_process_object stC10 5) 5 none).isSome ∧
    (stop_process (cleanup_process_object stC10 5) 5 true none).1
      = StopOutcome.notFound :=
  ⟨by decide,
   (C10_theorem stC10 5 none true none
     { cmd := "serve", cwd := "/w", started_at := 0, pid := 5,
       log_file := "/w/run.log", env := "w" } (by decide)).2.1,
   (C10_theorem stC10 5 none true none
     { cmd := "serve", cwd := "/w", started_at := 0, pid := 5,
       log_file := "/w/run.log", env := "w" } (by decide)).2.2⟩

/-- C1 (counterexample): it is not true that exitCode is set iff endedAt is
set at every observable point: the pump writes exit_code and ended_at in
two separate Redis hsets, so the trace of a completing process contains a
state where exit_code is set and ended_at is still unset. -/
theorem C1_counterexample :
    ¬ (∀ s ∈ stream_process_output_trace stC1 5 "/w/run.log" [] none "" 0 ""
          0 "T",
        ((exitOf s 5).isSome ↔ (endedOf s 5).isSome)) := by decide

/-- C1 (amended): on an exception-free pump run, at every observable point
endedAt is set only if exitCode is already set (never endedAt without
exitCode); exitCode only ever holds the child's exit code (it is written
at most once, with that value); and the final state has both fields set. -/
theorem C1_amended (st : RegistryState) (pid : Nat) (path : String)
    (lines : List String) (code : Int) (sd emsg tstr : String) (t0 : Nat)
    (hx : exitOf st pid = none) (he : endedOf st pid = none) :
    (∀ s ∈ stream_process_output_trace st pid path lines none emsg code sd
        t0 tstr,
      ((endedOf s pid).isSome → exitOf s pid = some code) ∧
      (exitOf s pid = none ∨ exitOf s pid = some code)) ∧
    exitOf (stream_process_output st pid path lines none emsg code sd t0
        tstr) pid = some code ∧
    (endedOf (stream_process_output st pid path lines none emsg code sd t0
        tstr) pid).isSome := by
  have hx0 : exitOf (appendFile st path (headerWrites pid tstr)) pid = none := by
    rw [exitOf_appendFile]
    exact hx
  have he0 : endedOf (appendFile st path (headerWrites pid tstr)) pid = none := by
    rw [endedOf_appendFile]
    exact he
  have hrw : stream_process_output st pid path lines none emsg code sd t0 tstr
      = (pumpAux pid path code sd emsg tstr t0 lines none
          (appendFile st path (headerWrites pid tstr))).getLastD
          (appendFile st path (headerWrites pid tstr)) := by
    simp only [stream_process_output, stream_process_output_trace]
    rw [List.getLastD_cons]
  refine ⟨?_, ?_, ?_⟩
  · intro s hs
    simp only [stream_process_output_trace, List.mem_cons] at hs
    rcases hs with rfl | hs
    · constructor
      · intro hcon
        rw [he0] at hcon
        simp at hcon
      · left
        exact hx0
    · exact pumpAux_none_all pid path code sd emsg tstr lines t0 _ hx0 he0 s hs
  · rw [hrw]
    exact (pumpAux_none_getLast pid path code sd emsg tstr lines t0 _ _).1
  · rw [hrw]
    exact (pumpAux_none_getLast pid path code sd emsg tstr lines t0 _ _).2

/-- C1 (witness): on the concrete registry, the pump run on an empty-output
child with exit code 0 ends with exit_code = some 0 (and ended_at set). -/
theorem C1_witness :
    exitOf stC1 5 = none ∧ endedOf stC1 5 = none ∧
    exitOf (stream_process_output stC1 5 "/w/run.log" [] none "" 0 "" 0 "T")
      5 = some 0 :=
  ⟨by decide, by decide,
   (C1_amended stC1 5 "/w/run.log" [] 0 "" "" "T" 0 (by decide)
     (by decide)).2.1⟩

/-- C2 (counterexample): when reading fails mid-stream (exception injected
before the first line), the pump sets only the error hash field: it
appends NO error LogEntry (the log list is untouched), does NOT wait on
the child (the waited trace stays empty), and leaves exit_code and
ended_at unset — contradicting the claim that it still waits and still
sets the terminal fields. -/
theorem C2_counterexample :
    errorOf (stream_process_output stC2 5 "/w/run.log" ["hi\n"] (some 0)
        "Input/output error" 1 "" 0 "T") 5 = some "Input/output error" ∧
    exitOf (stream_process_output stC2 5 "/w/run.log" ["hi\n"] (some 0)
        "Input/output error" 1 "" 0 "T") 5 = none ∧
    endedOf (stream_process_output stC2 5 "/w/run.log" ["hi\n"] (some 0)
        "Input/output error" 1 "" 0 "T") 5 = none ∧
    (stream_process_output stC2 5 "/w/run.log" ["hi\n"] (some 0)
        "Input/output error" 1 "" 0 "T").waited = [] ∧
    lookupLogs (stream_process_output stC2 5 "/w/run.log" ["hi\n"] (some 0)
        "Input/output error" 1 "" 0 "T") 5 = [] := by decide

/-- C2 (amended): if reading or writing fails after k stdout lines, the
pump records the error as an [ERROR] line in the durable file and an
error field on the record, but pushes no further LogEntry, does not wait
on the child, and leaves exitCode and endedAt unset — the record stays
non-terminal even if the child has exited; the liveness probe of list is
the only backstop. -/
theorem C2_amended (st : RegistryState) (pid : Nat) (path : String)
    (lines : List String) (k : Nat) (emsg : String) (code : Int)
    (sd tstr : String) (t0 : Nat)
    (hx : exitOf st pid = none) (he : endedOf st pid = none) :
    errorOf (stream_process_output st pid path lines (some k) emsg code sd
        t0 tstr) pid = some emsg ∧
    exitOf (stream_process_output st pid path lines (some k) emsg code sd
        t0 tstr) pid = none ∧
    endedOf (stream_process_output st pid path lines (some k) emsg code sd
        t0 tstr) pid = none ∧
    (stream_process_output st pid path lines (some k) emsg code sd t0
        tstr).waited = st.waited ∧
    lookupLogs (stream_process_output st pid path lines (some k) emsg code
        sd t0 tstr) pid
      = lookupLogs st pid ++ stdoutEntries t0 (lines.take k) := by
  have hrw : stream_process_output st pid path lines (some k) emsg code sd t0
        tstr
      = (pumpAux pid path code sd emsg tstr t0 lines (some k)
          (appendFile st path (headerWrites pid tstr))).getLastD
          (appendFile st path (headerWrites pid tstr)) := by
    simp only [stream_process_output, stream_process_output_trace]
    rw [List.getLastD_cons]
  have h := pumpAux_fail_getLast pid path code sd emsg tstr lines k t0
    (appendFile st path (headerWrites pid tstr))
    (appendFile st path (headerWrites pid tstr))
  rw [hrw]
  refine ⟨h.1, ?_, ?_, ?_, ?_⟩
  · rw [h.2.1, exitOf_appendFile]
    exact hx
  · rw [h.2.2.1, endedOf_appendFile]
    exact he
  · rw [h.2.2.2.1]
    rfl
  · rw [h.2.2.2.2]
    rfl

/-- C2 (witness): the amended behaviour evaluated on the concrete registry
with a failure after one of two stdout lines. -/
theorem C2_witness :
    exitOf stC2 5 = none ∧
    errorOf (stream_process_output stC2 5 "/w/run.log" ["a\n", "b\n"]
        (some 1) "boom" 0 "" 0 "T") 5 = some "boom" ∧
    lookupLogs (stream_process_output stC2 5 "/w/run.log" ["a\n", "b\n"]
        (some 1) "boom" 0 "" 0 "T") 5
      = lookupLogs stC2 5 ++ stdoutEntries 0 (["a\n", "b\n"].take 1) :=
  ⟨by decide,
   (C2_amended stC2 5 "/w/run.log" ["a\n", "b\n"] 1 "boom" 0 "" "T" 0
     (by decide) (by decide)).1,
   (C2_amended stC2 5 "/w/run.log" ["a\n", "b\n"] 1 "boom" 0 "" "T" 0
     (by decide) (by decide)).2.2.2.2⟩

/-- C7 (counterexample): the pump does not append one LogEntry per line of
either stream in arrival order: a child whose stderr holds two lines
("x\ny\n") next to one stdout line yields exactly two entries — the
stdout line, then a single stderr entry containing the whole two-line
buffer, pushed only after the wait. -/
theorem C7_counterexample :
    lookupLogs (stream_process_output stC7 5 "/w/run.log" ["a\n"] none ""
        0 "x\ny\n" 0 "T") 5
      = [⟨StreamKind.stdout, "a", 0⟩, ⟨StreamKind.stderr, "x\ny\n", 1⟩] ∧
    "x\ny\n" = "x\n" ++ "y\n" := by decide

/-- C7 (amended): the pump drains stdout line by line, appending one stdout
LogEntry per line in stdout order; stderr is read in one piece only after
the child has been waited on and contributes at most one LogEntry holding
the entire buffer, appended after all stdout entries — the sequence is
all-stdout-then-stderr, not cross-stream arrival order. -/
theorem C7_amended (st : RegistryState) (pid : Nat) (path : String)
    (lines : List String) (code : Int) (sd emsg tstr : String) (t0 : Nat) :
    lookupLogs (stream_process_output st pid path lines none emsg code sd
        t0 tstr) pid
      = lookupLogs st pid ++ stdoutEntries t0 lines ++
        (if sd = "" then []
         else [⟨StreamKind.stderr, sd, t0 + lines.length⟩]) := by
  have hrw : stream_process_output st pid path lines none emsg code sd t0 tstr
      = (pumpAux pid path code sd emsg tstr t0 lines none
          (appendFile st path (headerWrites pid tstr))).getLastD
          (appendFile st path (headerWrites pid tstr)) := by
    simp only [stream_process_output, stream_process_output_trace]
    rw [List.getLastD_cons]
  rw [hrw]
  exact pumpAux_none_logs pid path code sd emsg tstr lines t0 _ _

/-- C5 (counterexample): restarting the running pid-3 record (original
command "python app.py") issues a graceful SIGTERM — not a forced stop —
and starts the replacement with the command "bash run.sh", not the
record's original command. -/
theorem C5_counterexample :
    (lookupInfo stC5 3).map InfoRecord.cmd = some "python app.py" ∧
    (restart_cmd stC5 3 none none none (Except.ok 7) 10).1.toOption
      = some 7 ∧
    (lookupInfo (restart_cmd stC5 3 none none none (Except.ok 7) 10).2
        7).map InfoRecord.cmd = some "bash run.sh" ∧
    some "bash run.sh" ≠ some "python app.py" ∧
    (restart_cmd stC5 3 none none none (Except.ok 7) 10).2.sigLog
      = [(3, false)] := by decide

/-- C5 (amended): restart_cmd fails with the not-found error when the id is
unknown; otherwise it issues a GRACEFUL (force=false) stop if the record
is still running, deletes the old record and logs (so the old id is
absent from subsequent list results, provided the OS assigns a different
pid), and starts a replacement in the same workingDirectory but with the
command "bash run.sh" / "bash <run_script>" — not the old record's
command — returning the new pid. -/
theorem C5_amended (st : RegistryState) (pid : Nat) (rs ek kx : Option String)
    (npid t : Nat) (alive : Nat → Bool) :
    (lookupInfo st pid = none →
      restart_cmd st pid rs ek kx (Except.ok npid) t
        = (Except.error ("Process " ++ toString pid ++ " not found"), st)) ∧
    (∀ r, lookupInfo st pid = some r → npid ≠ pid →
      (restart_cmd st pid rs ek kx (Except.ok npid) t).1 = Except.ok npid ∧
      lookupInfo (restart_cmd st pid rs ek kx (Except.ok npid) t).2 pid
        = none ∧
      pid ∉ (list_all_processes
          (restart_cmd st pid rs ek kx (Except.ok npid) t).2 alive).map
          ProcListEntry.pid ∧
      (lookupInfo (restart_cmd st pid rs ek kx (Except.ok npid) t).2
          npid).map InfoRecord.cmd = some (restartCommand rs) ∧
      (lookupInfo (restart_cmd st pid rs ek kx (Except.ok npid) t).2
          npid).map InfoRecord.cwd = some r.cwd ∧
      (pid ∈ st.procObjects → r.exit_code = none → kx = none →
        (restart_cmd st pid rs ek kx (Except.ok npid) t).2.sigLog
          = st.sigLog ++ [(pid, false)])) := by
  constructor
  · intro h
    simp [restart_cmd, h]
  · intro r h hnp
    have hpn : pid ≠ npid := fun hh => hnp hh.symm
    simp only [restart_cmd, h, start_process]
    refine ⟨?_, ?_, ?_, ?_, ?_, ?_⟩
    · first
      | rfl
      | trivial
    · show alookup (aset (adel _ pid) npid _) pid = none
      rw [alookup_aset_ne _ _ _ _ hpn, alookup_adel_self]
    · rw [list_all_processes_pids]
      intro hmem
      rcases mem_map_fst_aset_iff (adel _ pid) npid pid _ |>.mp hmem with
        h1 | h1
      · exact hpn h1
      · exact not_mem_map_fst_adel _ pid h1
    · show (alookup (aset (adel _ pid) npid _) npid).map InfoRecord.cmd = _
      rw [alookup_aset_self]
      rfl
    · show (alookup (aset (adel _ pid) npid _) npid).map InfoRecord.cwd = _
      rw [alookup_aset_self]
      rfl
    · intro hm hx hkx
      subst hkx
      have hsig : ((stop_process st pid false none).2).sigLog
          = st.sigLog ++ [(pid, false)] := by
        have hx2 : (lookupInfo st pid).bind (fun q => q.exit_code) = none := by
          rw [h]
          simpa using hx
        simp [stop_process, hm, hx2]
      simp only [hx, if_pos rfl]
      show ((stop_process st pid false none).2).sigLog = _
      exact hsig

/-- C5 (witness): on the concrete registry, restarting pid 3 into new pid 7
returns ok 7, removes pid 3 from the registry and from list output, and
the replacement runs "bash run.sh" in the same cwd. -/
theorem C5_witness :
    lookupInfo stC5 3
      = some { cmd := "python app.py", cwd := "/w", started_at := 0,
               pid := 3, log_file := "/w/run.log", env := "w" } ∧
    (restart_cmd stC5 3 none none none (Except.ok 7) 10).1 = Except.ok 7 ∧
    lookupInfo (restart_cmd stC5 3 none none none (Except.ok 7) 10).2 3
      = none ∧
    (lookupInfo (restart_cmd stC5 3 none none none (Except.ok 7) 10).2
        7).map InfoRecord.cwd = some "/w" := by
  have h := (C5_amended stC5 3 none none none 7 10 (fun _ => false)).2
    { cmd := "python app.py", cwd := "/w", started_at := 0, pid := 3,
      log_file := "/w/run.log", env := "w" } (by decide) (by decide)
  exact ⟨by decide, h.1, h.2.1, h.2.2.2.2.1⟩

end CodeVox
